import Mathlib

/-!
Shallow embedding of the event-app server's payment, ticket-transfer and
scan logic, together with proofs about the claims of the specification.

Sources embedded (JavaScript, Mongo-backed):
* `src/unnamed/part_000` — flexible named-tier Event schema with its
  `pre("save")` hook recomputing `soldOut`.
* `src/services/paymentService.js` — `verifyStripePayment`,
  `verifyWavePayment`, `updatePaymentStatus`.
* `src/unnamed/part_009` — named-tier controller: `initiatePayment`,
  `verifyPayment` (success path, error path).
* `src/unnamed/part_006` — legacy two-tier controller: `verifyPayment`
  with a capacity re-check and a `findByIdAndUpdate` that writes `soldOut`
  from the tier values read before the increment.
* `src/services/ticketService.js` — `createTickets`, `transferTicket`,
  `cancelTransfer`, `generateTicketQR`.
* `src/controllers/adminController.js` — `scanTicket` (second variant,
  lines 457-484; the first variant only adds an admin-ownership filter).

Modelling conventions: Mongo documents are records in lists; document ids
and epoch-millisecond times are `Nat`; external gateway responses are
inputs; `findOneAndUpdate` on a reference updates all matches (references
carry a unique index, so at most one matches in any reachable store);
the QR side effect is abstracted to a per-ticket generation counter
`qrGenerations` (the claims only speak about whether a QR is generated
again); gateway session-creation side writes (wave session id, converted
amounts) and notification sends are not claim-relevant and are omitted.
JavaScript `Error` messages thrown by the payment service are modelled by
the inductive `PSError`; an exception raised by dereferencing `null`
(e.g. `ticket.user.toString()` when `user` is null) is a distinct error.
-/

deriving instance DecidableEq for Except

/-- Payment status values (`PAYMENT_STATUS` in paymentService.js). -/
inductive PayStatus
  | pending
  | success
  | failed
  | refunded
deriving DecidableEq, Repr

/-- Ticket status values (`["pending", "success", "failed"]` in Ticket.js). -/
inductive TkStatus
  | pending
  | success
  | failed
deriving DecidableEq, Repr

/-- One named ticket tier of an event (`ticketTypeSchema` in part_000). -/
structure TicketType where
  name : String
  price : Nat
  quantity : Nat
  sold : Nat
deriving DecidableEq, Repr

/-- Flexible named-tier event document (part_000). -/
structure EventDoc where
  id : Nat
  date : Nat
  ticketTypes : List TicketType
  soldOut : Bool
deriving DecidableEq, Repr

/-- `recipientInfo` subdocument of a ticket. -/
structure RecipientInfo where
  type : String
  value : Option String
  name : Option String
deriving DecidableEq, Repr

/-- The `to` subdocument of a transfer-history entry. -/
structure TransferTo where
  type : String
  value : String
  name : String
  user : Option Nat
deriving DecidableEq, Repr

/-- One transfer-history entry (`transferHistory` in ticketService.js).
`fromUser` and `toInfo` model the source fields `from` and `to`
(both Lean keywords). -/
structure TransferRecord where
  fromUser : Nat
  toInfo : TransferTo
  transferredAt : Nat
  status : String
  expiresAt : Nat
  cancelledAt : Option Nat
  cancelledBy : Option Nat
deriving DecidableEq, Repr

/-- Ticket document (Ticket.js). `qrGenerations` abstracts the `qrCode`
subdocument: it counts how many times a QR code has been generated. -/
structure TicketDoc where
  id : Nat
  event : Nat
  user : Option Nat
  recipientInfo : Option RecipientInfo
  ticketType : String
  price : Nat
  reference : String
  paymentReference : String
  status : TkStatus
  scanned : Bool
  scannedAt : Option Nat
  scannedBy : Option Nat
  transferred : Bool
  transferHistory : List TransferRecord
  qrGenerations : Nat
deriving DecidableEq, Repr

/-- Payment document (Payments.js); gateway correlation ids are omitted. -/
structure PaymentDoc where
  user : Nat
  event : Nat
  amount : Nat
  reference : String
  tickets : List Nat
  status : PayStatus
  paymentGateway : String
deriving DecidableEq, Repr

/-- User document (only the fields ticketService.js touches). -/
structure UserDoc where
  id : Nat
  email : String
  mobileNumber : String
  tickets : List Nat
deriving DecidableEq, Repr

/-- The persistent store for the named-tier variant. -/
structure DB where
  events : List EventDoc
  payments : List PaymentDoc
  tickets : List TicketDoc
  users : List UserDoc
deriving DecidableEq, Repr

/-- `map` that rewrites exactly the elements matching a predicate, as a
Mongo update does. -/
def guardMap (p : α → Bool) (g : α → α) (l : List α) : List α :=
  l.map fun x => if p x then g x else x

/-- `Payment.findOne({ reference })`. -/
def findPayment (db : DB) (reference : String) : Option PaymentDoc :=
  db.payments.find? fun p => p.reference == reference

/-- `Event.findById`. -/
def findEvent (db : DB) (id : Nat) : Option EventDoc :=
  db.events.find? fun e => e.id == id

/-- `Ticket.findById`. -/
def findTicket (db : DB) (id : Nat) : Option TicketDoc :=
  db.tickets.find? fun t => t.id == id

/-- Write a status into the payment with the given reference
(`Payment.findOneAndUpdate({ reference }, { $set: { status } })`). -/
def setPayStatus (l : List PaymentDoc) (reference : String) (s : PayStatus) :
    List PaymentDoc :=
  guardMap (fun p => p.reference == reference) (fun p => { p with status := s }) l

/-- Write a status into every ticket with the given payment reference
(`Ticket.updateMany({ paymentReference }, { $set: { status } })`). -/
def setTicketsStatus (l : List TicketDoc) (reference : String) (s : TkStatus) :
    List TicketDoc :=
  guardMap (fun t => t.paymentReference == reference) (fun t => { t with status := s }) l

/-- `eventSchema.pre("save")` hook of part_000: recompute `soldOut` as the
conjunction of `sold >= quantity` over all tiers (false when no tiers). -/
def eventPreSave (e : EventDoc) : EventDoc :=
  if e.ticketTypes.isEmpty then { e with soldOut := false }
  else { e with soldOut := e.ticketTypes.all fun tt => tt.quantity ≤ tt.sold }

/-- `event.save()`: run the pre-save hook, then store the document. -/
def saveEventIn (db : DB) (e : EventDoc) : DB :=
  let e1 := eventPreSave e
  { db with events := guardMap (fun x => x.id == e.id) (fun _ => e1) db.events }

/-- Error values thrown by paymentService.js (`new Error(...)` messages). -/
inductive PSError
  | paymentNotFound
  | paymentFailedStripe
  | paymentFailedOrCancelled
  | paymentHasFailed
  | verificationFailed
deriving DecidableEq, Repr

/-- `updatePaymentStatus(reference, status)` of paymentService.js: set the
payment's status; when the status is FAILED also fail all linked tickets. -/
def updatePaymentStatus (db : DB) (reference : String) (s : PayStatus) : DB :=
  let db1 := { db with payments := setPayStatus db.payments reference s }
  if s = PayStatus.failed then
    { db1 with tickets := setTicketsStatus db1.tickets reference TkStatus.failed }
  else db1

/-- Wave `checkout/sessions/{id}` response body (the fields the service
reads). -/
structure WaveSessionData where
  payment_status : String
  checkout_status : String
deriving DecidableEq, Repr

/-- The two literal message strings `verifyWavePayment` can attach to a
non-error result. -/
inductive WaveMsg
  | stillPending
  | sessionNotFound
deriving DecidableEq, Repr

/-- What `verifyWavePayment` resolves with: the payment it fetched, an
optional message (present exactly on the still-pending / session-missing
returns) and the `waveData.status` string it reports. -/
structure WaveVerifyResult where
  payment : PaymentDoc
  message : Option WaveMsg
  waveDataStatus : String
deriving DecidableEq, Repr

/-- Body of `verifyWavePayment` before its catch-all. The gateway response
is an input: `none` models the poll answering 404 (session not found). -/
def verifyWavePaymentInner (db : DB) (reference : String)
    (gw : Option WaveSessionData) : DB × Except PSError WaveVerifyResult :=
  match findPayment db reference with
  | none => (db, Except.error PSError.paymentNotFound)
  | some payment =>
    if payment.status = PayStatus.success then
      (db, Except.ok ⟨payment, none, "succeeded"⟩)
    else if payment.status = PayStatus.pending then
      match gw with
      | none => (db, Except.ok ⟨payment, some WaveMsg.sessionNotFound, "pending"⟩)
      | some waveData =>
        if waveData.payment_status = "succeeded" ∨ waveData.checkout_status = "completed" then
          let db1 := updatePaymentStatus db reference PayStatus.success
          match findPayment db1 reference with
          | some updated => (db1, Except.ok ⟨updated, none, "succeeded"⟩)
          | none => (db1, Except.error PSError.paymentNotFound)
        else if waveData.payment_status ∈ ["failed", "cancelled", "expired"] then
          let db1 := updatePaymentStatus db reference PayStatus.failed
          (db1, Except.error PSError.paymentFailedOrCancelled)
        else
          (db, Except.ok ⟨payment, some WaveMsg.stillPending, "pending"⟩)
    else if payment.status = PayStatus.failed then
      (db, Except.error PSError.paymentHasFailed)
    else
      (db, Except.ok ⟨payment, none, ""⟩)

/-- `verifyWavePayment(reference)`: the inner body wrapped by the
function's catch-all, which rethrows every error as
"Payment verification failed". -/
def verifyWavePayment (db : DB) (reference : String)
    (gw : Option WaveSessionData) : DB × Except PSError WaveVerifyResult :=
  let r := verifyWavePaymentInner db reference gw
  match r.2 with
  | Except.ok v => (r.1, Except.ok v)
  | Except.error _ => (r.1, Except.error PSError.verificationFailed)

/-- A retrieved Stripe checkout session (the fields the code reads). -/
structure StripeSession where
  id : String
  client_reference_id : String
  payment_status : String
  payment_intent : String
deriving DecidableEq, Repr

/-- `verifyStripePayment(session)` of paymentService.js, with its catch-all
already applied (every internal throw surfaces as
"Payment verification failed"). On a non-paid session it marks the payment
and its tickets failed before throwing; on a paid session it marks the
payment success and resolves with the payment fetched before the update. -/
def verifyStripePayment (db : DB) (session : StripeSession) :
    DB × Except PSError PaymentDoc :=
  match findPayment db session.client_reference_id with
  | none => (db, Except.error PSError.verificationFailed)
  | some payment =>
    if session.payment_status ≠ "paid" then
      (updatePaymentStatus db session.client_reference_id PayStatus.failed,
        Except.error PSError.verificationFailed)
    else
      (updatePaymentStatus db session.client_reference_id PayStatus.success,
        Except.ok payment)

/-- Responses of the part_009 `verifyPayment` controller. -/
inductive VerifyResp
  | missingParams
  | invalidGateway
  | pendingResult (msg : WaveMsg) (status : PayStatus)
  | verified (gateway : String)
  | failedResp
deriving DecidableEq, Repr

/-- The catch block of part_009's `verifyPayment`: when the request body
carried a reference, mark the payment with that reference and all tickets
sharing it as failed, then answer 500. -/
def verifyErrorPath (db : DB) (bodyRef : String) : DB × VerifyResp :=
  if bodyRef = "" then (db, VerifyResp.failedResp)
  else
    let db1 := { db with payments := setPayStatus db.payments bodyRef PayStatus.failed }
    let db2 := { db1 with tickets := setTicketsStatus db1.tickets bodyRef TkStatus.failed }
    (db2, VerifyResp.failedResp)

/-- Increment `sold` of the first tier whose name matches, as
`event.ticketTypes[event.ticketTypes.findIndex(...)].sold += n` does. -/
def incSoldFirst : List TicketType → String → Nat → List TicketType
  | [], _, _ => []
  | tt :: rest, nm, n =>
    if tt.name = nm then { tt with sold := tt.sold + n } :: rest
    else tt :: incSoldFirst rest nm n

/-- The success tail of part_009's `verifyPayment` (lines 468-551): set the
payment success, flip every linked ticket to success and generate its QR
code, increment the matching tier's `sold` by the ticket count and save the
event (pre-save hook recomputes `soldOut`), then re-read the event and set
`soldOut` once more when every tier is sold out. A missing ticket list or
event makes the original throw into the catch block. -/
def verifySuccessPath (db : DB) (bodyRef : String) (payment : PaymentDoc)
    (gateway : String) : DB × VerifyResp :=
  let ref := payment.reference
  let db1 := { db with payments := setPayStatus db.payments ref PayStatus.success }
  let tks := db1.tickets.filter fun t => t.paymentReference == ref
  match tks with
  | [] => verifyErrorPath db1 bodyRef
  | t0 :: _ =>
    let db2 := { db1 with
      tickets := guardMap (fun t => t.paymentReference == ref)
        (fun t => { t with status := TkStatus.success, qrGenerations := t.qrGenerations + 1 })
        db1.tickets }
    match findEvent db2 payment.event with
    | none => verifyErrorPath db2 bodyRef
    | some ev =>
      let db3 :=
        if ev.ticketTypes.any (fun tt => tt.name == t0.ticketType) then
          saveEventIn db2 { ev with ticketTypes := incSoldFirst ev.ticketTypes t0.ticketType tks.length }
        else db2
      match findEvent db3 payment.event with
      | none => verifyErrorPath db3 bodyRef
      | some ev2 =>
        let db4 :=
          if ev2.ticketTypes.all (fun tt => tt.quantity ≤ tt.sold) then
            saveEventIn db3 { ev2 with soldOut := true }
          else db3
        (db4, VerifyResp.verified gateway)

/-- part_009 `verifyPayment` (lines 430-579). External inputs: the Stripe
session retrieved from the body reference (`none` models the retrieve call
throwing) and the Wave poll response. -/
def verifyPayment9 (db : DB) (reference gateway : String)
    (stripeSess : Option StripeSession) (waveGw : Option WaveSessionData) :
    DB × VerifyResp :=
  if reference = "" ∨ gateway = "" then (db, VerifyResp.missingParams)
  else if gateway = "stripe" then
    match stripeSess with
    | none => verifyErrorPath db reference
    | some s =>
      let r := verifyStripePayment db s
      match r.2 with
      | Except.error _ => verifyErrorPath r.1 reference
      | Except.ok payment => verifySuccessPath r.1 reference payment "stripe"
  else if gateway = "wave" then
    let r := verifyWavePayment db reference waveGw
    match r.2 with
    | Except.error _ => verifyErrorPath r.1 reference
    | Except.ok v =>
      match v.message with
      | some msg => (r.1, VerifyResp.pendingResult msg v.payment.status)
      | none => verifySuccessPath r.1 reference v.payment "wave"
  else (db, VerifyResp.invalidGateway)

/-- Responses of the part_009 `initiatePayment` controller. -/
inductive InitResp
  | notFound
  | eventSoldOut
  | invalidTicketType
  | typeSoldOut
  | notEnough (available : Nat)
  | okResp (gateway reference : String)
  | initFailed
deriving DecidableEq, Repr

/-- `Payment.deleteOne({ reference })`: remove the first matching document. -/
def deleteOnePayment : List PaymentDoc → String → List PaymentDoc
  | [], _ => []
  | p :: rest, ref => if p.reference = ref then rest else p :: deleteOnePayment rest ref

/-- The tickets `ticketService.createTickets` builds: `quantity` pending
tickets with references `<mainReference>-TKT-<i>`, each carrying
`recipientInfo[i]` or the `{ type: recipientType, value: null, name: null }`
fallback. Fresh document ids are `baseId + i`. -/
def createTicketDocs (eventId userId quantity : Nat) (ticketTypeName : String)
    (price : Nat) (mainReference : String) (recipientInfo : List RecipientInfo)
    (recipientType : String) (baseId : Nat) : List TicketDoc :=
  (List.range quantity).map fun i =>
    { id := baseId + i
      event := eventId
      user := some userId
      recipientInfo := some ((recipientInfo.get? i).getD ⟨recipientType, none, none⟩)
      ticketType := ticketTypeName
      price := price
      reference := mainReference ++ "-TKT-" ++ toString i
      paymentReference := mainReference
      status := TkStatus.pending
      scanned := false
      scannedAt := none
      scannedBy := none
      transferred := false
      transferHistory := []
      qrGenerations := 0 }

/-- part_009 `initiatePayment` (lines 299-427). `mainReference` and the
fresh ticket ids are environment inputs; `gatewayOk` tells whether the
gateway session creation succeeds (its side writes on the payment are not
claim-relevant and omitted). When the gateway call throws after the
payment and tickets were created, the catch block deletes the payment by
reference and every ticket by payment reference before responding 500. -/
def initiatePayment9 (db : DB) (eventId : Nat) (ticketTypeName : String)
    (quantity userId : Nat) (recipientInfo : List RecipientInfo)
    (recipientType paymentGateway mainReference : String) (baseId : Nat)
    (gatewayOk : Bool) : DB × InitResp :=
  match findEvent db eventId with
  | none => (db, InitResp.notFound)
  | some event =>
    if event.soldOut then (db, InitResp.eventSoldOut)
    else
      match event.ticketTypes.find? (fun tt => tt.name == ticketTypeName) with
      | none => (db, InitResp.invalidTicketType)
      | some ticketType =>
        if ¬ ticketType.sold < ticketType.quantity then (db, InitResp.typeSoldOut)
        else
          let availableTickets := ticketType.quantity - ticketType.sold
          if availableTickets < quantity then (db, InitResp.notEnough availableTickets)
          else
            let payment : PaymentDoc :=
              { user := userId, event := eventId,
                amount := ticketType.price * quantity,
                reference := mainReference, tickets := [],
                status := PayStatus.pending, paymentGateway := paymentGateway }
            let newTickets := createTicketDocs eventId userId quantity
              ticketTypeName ticketType.price mainReference recipientInfo
              recipientType baseId
            let db1 := { db with
              payments := db.payments ++ [payment],
              tickets := db.tickets ++ newTickets }
            let db2 := { db1 with
              payments := guardMap (fun p => p.reference == mainReference)
                (fun p => { p with tickets := newTickets.map (fun t => t.id) })
                db1.payments }
            if gatewayOk then (db2, InitResp.okResp paymentGateway mainReference)
            else
              let db3 := { db2 with payments := deleteOnePayment db2.payments mainReference }
              let db4 := { db3 with
                tickets := db3.tickets.filter fun t => ! (t.paymentReference == mainReference) }
              (db4, InitResp.initFailed)

/-- A two-tier ticket bucket (`standardTicket` / `vipTicket` fields of the
legacy Event schema). -/
structure Tier2 where
  price : Nat
  quantity : Nat
  sold : Nat
deriving DecidableEq, Repr

/-- Legacy two-tier event document (EventModel.js of the part_006 era). -/
structure Event2Doc where
  id : Nat
  standardTicket : Tier2
  vipTicket : Tier2
  soldOut : Bool
deriving DecidableEq, Repr

/-- Store for the legacy two-tier controller of part_006 (users are not
touched by its verify flow). -/
structure DB6 where
  events : List Event2Doc
  payments : List PaymentDoc
  tickets : List TicketDoc
deriving DecidableEq, Repr

/-- `Payment.findOne({ reference })` in the two-tier store. -/
def findPayment6 (db : DB6) (reference : String) : Option PaymentDoc :=
  db.payments.find? fun p => p.reference == reference

/-- `Event.findById` in the two-tier store. -/
def findEvent6 (db : DB6) (id : Nat) : Option Event2Doc :=
  db.events.find? fun e => e.id == id

/-- `Ticket.findById` in the two-tier store. -/
def findTicket6 (db : DB6) (id : Nat) : Option TicketDoc :=
  db.tickets.find? fun t => t.id == id

/-- Read the tier selected by `ticketType === "vip" ? "vipTicket" :
"standardTicket"`. -/
def getTier2 (e : Event2Doc) (isVip : Bool) : Tier2 :=
  if isVip then e.vipTicket else e.standardTicket

/-- Mark the payment with the given reference and its tickets failed, as
part_006's non-paid and capacity-exceeded branches do. -/
def markFailed6 (db : DB6) (reference : String) : DB6 :=
  { db with
    payments := setPayStatus db.payments reference PayStatus.failed,
    tickets := setTicketsStatus db.tickets reference TkStatus.failed }

/-- Responses of part_006's `verifyPayment`. -/
inductive Resp6
  | paymentFailed
  | notFound
  | capacityExceeded
  | verified
  | errorResp
deriving DecidableEq, Repr

/-- part_006 `verifyPayment` (lines 225-333). The retrieved Stripe session
is an input (`none` models the retrieve call throwing, which lands in the
catch block keyed by the posted `session_id`). On the success branch the
event is updated through `findByIdAndUpdate`, which bypasses the pre-save
hook and writes `soldOut` computed from the tier values read BEFORE the
increment (`event.standardTicket.sold >= ... && event.vipTicket.sold >= ...`). -/
def verifyPayment6 (db : DB6) (session_id : String)
    (sess : Option StripeSession) : DB6 × Resp6 :=
  match sess with
  | none => (markFailed6 db session_id, Resp6.errorResp)
  | some s =>
    let reference := s.client_reference_id
    if s.payment_status ≠ "paid" then (markFailed6 db reference, Resp6.paymentFailed)
    else
      match findPayment6 db reference with
      | none => (db, Resp6.notFound)
      | some payment =>
        match payment.tickets.head? with
        | none => (markFailed6 db session_id, Resp6.errorResp)
        | some tid0 =>
          match findTicket6 db tid0 with
          | none => (markFailed6 db session_id, Resp6.errorResp)
          | some t0 =>
            let isVip := t0.ticketType = "vip"
            match findEvent6 db payment.event with
            | none => (markFailed6 db session_id, Resp6.errorResp)
            | some event =>
              let tier := getTier2 event isVip
              if tier.quantity < tier.sold + payment.tickets.length then
                (markFailed6 db reference, Resp6.capacityExceeded)
              else
                let db1 := { db with
                  payments := setPayStatus db.payments reference PayStatus.success,
                  tickets := setTicketsStatus db.tickets reference TkStatus.success }
                let staleSoldOut :=
                  event.standardTicket.quantity ≤ event.standardTicket.sold ∧
                  event.vipTicket.quantity ≤ event.vipTicket.sold
                let n := payment.tickets.length
                let db2 := { db1 with
                  events := guardMap (fun e => e.id == payment.event)
                    (fun e =>
                      let e1 :=
                        if isVip then { e with vipTicket := { e.vipTicket with sold := e.vipTicket.sold + n } }
                        else { e with standardTicket := { e.standardTicket with sold := e.standardTicket.sold + n } }
                      { e1 with soldOut := decide staleSoldOut })
                    db1.events }
                (db2, Resp6.verified)

/-- Errors of `ticketService.transferTicket`. `nullOwnerCrash` models the
TypeError raised by `ticket.user.toString()` when the owner is null. -/
inductive TransferErr
  | ticketNotFound
  | nullOwnerCrash
  | notOwner
  | ticketNotPaid
deriving DecidableEq, Repr

/-- The recipient summary `transferTicket` resolves with. -/
structure TransferResultInfo where
  type : String
  value : String
  name : String
  isRegisteredUser : Bool
deriving DecidableEq, Repr

/-- `User.findOne({ email })` / `User.findOne({ mobileNumber })` depending
on the recipient type. -/
def findRecipient (db : DB) (recipientType recipientValue : String) : Option UserDoc :=
  if recipientType = "email" then db.users.find? fun u => u.email == recipientValue
  else db.users.find? fun u => u.mobileNumber == recipientValue

/-- `$pull: { tickets: ticketId }` on one user. -/
def pullUserTicket (l : List UserDoc) (userId ticketId : Nat) : List UserDoc :=
  guardMap (fun u => u.id == userId)
    (fun u => { u with tickets := u.tickets.filter fun t => ! (t == ticketId) }) l

/-- `$addToSet: { tickets: ticketId }` on one user. -/
def addUserTicket (l : List UserDoc) (userId ticketId : Nat) : List UserDoc :=
  guardMap (fun u => u.id == userId)
    (fun u => if ticketId ∈ u.tickets then u else { u with tickets := u.tickets ++ [ticketId] }) l

/-- Replace the ticket with the given id (`ticket.save()`). -/
def storeTicket (db : DB) (ticketId : Nat) (t : TicketDoc) : DB :=
  { db with tickets := guardMap (fun x => x.id == ticketId) (fun _ => t) db.tickets }

/-- `ticketService.transferTicket(ticketId, fromUserId, recipientInfo)`
(ticketService.js lines 35-122): guard ownership and paid status, look the
recipient up, then in one transaction move the ticket off the sender's
user record, onto the recipient's if registered, repoint the ticket's
owner (null when unregistered), append a pending 24-hour transfer record,
overwrite `recipientInfo` and set `transferred`. -/
def transferTicket (db : DB) (ticketId fromUserId : Nat)
    (recipientType recipientValue recipientName : String) (now : Nat) :
    DB × Except TransferErr TransferResultInfo :=
  match findTicket db ticketId with
  | none => (db, Except.error TransferErr.ticketNotFound)
  | some ticket =>
    match ticket.user with
    | none => (db, Except.error TransferErr.nullOwnerCrash)
    | some ownerId =>
      if ownerId ≠ fromUserId then (db, Except.error TransferErr.notOwner)
      else if ticket.status ≠ TkStatus.success then (db, Except.error TransferErr.ticketNotPaid)
      else
        let recipientUser := findRecipient db recipientType recipientValue
        let usersMid := pullUserTicket db.users fromUserId ticketId
        let db2 : DB :=
          { db with users :=
              match recipientUser with
              | some ru => addUserTicket usersMid ru.id ticketId
              | none => usersMid }
        let newOwner := recipientUser.map fun u => u.id
        let entry : TransferRecord :=
          { fromUser := fromUserId
            toInfo := { type := recipientType, value := recipientValue,
                        name := recipientName, user := newOwner }
            transferredAt := now
            status := "pending"
            expiresAt := now + 24 * 60 * 60 * 1000
            cancelledAt := none
            cancelledBy := none }
        let db3 := storeTicket db2 ticketId
          { ticket with
            user := newOwner
            transferHistory := ticket.transferHistory ++ [entry]
            recipientInfo := some { type := recipientType, value := some recipientValue,
                                    name := some recipientName }
            transferred := true }
        (db3, Except.ok
          { type := recipientType, value := recipientValue, name := recipientName,
            isRegisteredUser := recipientUser.isSome })

/-- Errors of `ticketService.cancelTransfer`. -/
inductive CancelErr
  | ticketNotFound
  | notPermitted
  | noPendingTransfer
deriving DecidableEq, Repr

/-- `ticketService.cancelTransfer(ticketId, userId)` (ticketService.js
lines 124-175): requires the caller to be the ticket's CURRENT owner
(`ticket.user?.toString() !== userId` rejects otherwise) and the latest
transfer record to be pending; then marks that record cancelled, moves the
ticket off the recorded recipient's user record and onto the caller's,
sets the ticket's owner to the caller, clears `transferred` and sets
`recipientInfo` to null. -/
def cancelTransfer (db : DB) (ticketId userId : Nat) (now : Nat) :
    DB × Except CancelErr TicketDoc :=
  match findTicket db ticketId with
  | none => (db, Except.error CancelErr.ticketNotFound)
  | some ticket =>
    if ticket.user ≠ some userId then (db, Except.error CancelErr.notPermitted)
    else
      match ticket.transferHistory.getLast? with
      | none => (db, Except.error CancelErr.noPendingTransfer)
      | some latest =>
        if latest.status ≠ "pending" then (db, Except.error CancelErr.noPendingTransfer)
        else
          let cancelled :=
            { latest with
              status := "cancelled"
              cancelledAt := some now
              cancelledBy := some userId }
          let usersMid :=
            match latest.toInfo.user with
            | some ru => pullUserTicket db.users ru ticketId
            | none => db.users
          let db2 : DB := { db with users := addUserTicket usersMid userId ticketId }
          let newTicket :=
            { ticket with
              user := some userId
              transferred := false
              recipientInfo := none
              transferHistory := ticket.transferHistory.dropLast ++ [cancelled] }
          let db3 := storeTicket db2 ticketId newTicket
          (db3, Except.ok newTicket)

/-- Errors of the admin `scanTicket` handler. -/
inductive ScanErr
  | ticketNotFound
  | onlyPaidTickets
  | alreadyScanned
deriving DecidableEq, Repr

/-- adminController.js `scanTicket` (lines 457-484): reject a missing
ticket, a ticket whose status is not success, and an already-scanned
ticket; otherwise set `scanned`, `scannedAt` and `scannedBy`. The event is
fetched for the response only; its date is never consulted. -/
def scanTicket (db : DB) (ticketId adminId now : Nat) :
    DB × Except ScanErr TicketDoc :=
  match findTicket db ticketId with
  | none => (db, Except.error ScanErr.ticketNotFound)
  | some ticket =>
    if ticket.status ≠ TkStatus.success then (db, Except.error ScanErr.onlyPaidTickets)
    else if ticket.scanned then (db, Except.error ScanErr.alreadyScanned)
    else
      let newTicket :=
        { ticket with scanned := true, scannedAt := some now, scannedBy := some adminId }
      (storeTicket db ticketId newTicket, Except.ok newTicket)

/-! ## Concrete stores used to evaluate the claims -/

/-- A blank ticket to fill in concrete stores. -/
def baseTicket : TicketDoc :=
  { id := 0, event := 0, user := none, recipientInfo := none, ticketType := "",
    price := 0, reference := "", paymentReference := "", status := TkStatus.pending,
    scanned := false, scannedAt := none, scannedBy := none, transferred := false,
    transferHistory := [], qrGenerations := 0 }

/-- Store after one Wave payment of a single VIP ticket has already been
verified: the tier's `sold` is 1, the payment is success, the ticket is
success with one generated QR code. -/
def exDbC1 : DB :=
  { events := [{ id := 1, date := 99,
                 ticketTypes := [{ name := "VIP", price := 50, quantity := 10, sold := 1 }],
                 soldOut := false }],
    payments := [{ user := 7, event := 1, amount := 50, reference := "PAY-1",
                   tickets := [100], status := PayStatus.success, paymentGateway := "wave" }],
    tickets := [{ baseTicket with
                  id := 100, event := 1, user := some 7, ticketType := "VIP", price := 50,
                  reference := "PAY-1-TKT-0", paymentReference := "PAY-1",
                  status := TkStatus.success, qrGenerations := 1 }],
    users := [] }

/-- Store realizing the spec's oversell scenario: tier "VIP" has
quantity 2 and `sold` already 2 (a first verification credited them), and
a second pending Wave payment for two more tickets is about to verify. -/
def exDbC2 : DB :=
  { events := [{ id := 2, date := 99,
                 ticketTypes := [{ name := "VIP", price := 50, quantity := 2, sold := 2 }],
                 soldOut := true }],
    payments := [{ user := 7, event := 2, amount := 100, reference := "PAY-2",
                   tickets := [201, 202], status := PayStatus.pending, paymentGateway := "wave" }],
    tickets := [{ baseTicket with
                  id := 201, event := 2, user := some 7, ticketType := "VIP", price := 50,
                  reference := "PAY-2-TKT-0", paymentReference := "PAY-2" },
                { baseTicket with
                  id := 202, event := 2, user := some 7, ticketType := "VIP", price := 50,
                  reference := "PAY-2-TKT-1", paymentReference := "PAY-2" }],
    users := [] }

/-- A Wave gateway answer reporting the checkout as succeeded. -/
def waveSucceeded : WaveSessionData :=
  { payment_status := "succeeded", checkout_status := "completed" }

/-- Store with a payment already marked success, about to be re-verified
through Stripe with a session the gateway reports as unpaid. -/
def exDbC3 : DB :=
  { events := [],
    payments := [{ user := 7, event := 1, amount := 50, reference := "PAY-3",
                   tickets := [], status := PayStatus.success, paymentGateway := "stripe" }],
    tickets := [], users := [] }

/-- The unpaid Stripe session for `exDbC3`. -/
def unpaidSessC3 : StripeSession :=
  { id := "cs_3", client_reference_id := "PAY-3", payment_status := "unpaid",
    payment_intent := "pi_3" }

/-- Two-tier store for part_006's verification: the standard tier has
quantity 2 / sold 0, the vip tier is already sold out (1 of 1), and a paid
Stripe payment for the two standard tickets is about to verify. -/
def exDbC6 : DB6 :=
  { events := [{ id := 6,
                 standardTicket := { price := 5, quantity := 2, sold := 0 },
                 vipTicket := { price := 10, quantity := 1, sold := 1 },
                 soldOut := false }],
    payments := [{ user := 7, event := 6, amount := 10, reference := "PAY-6",
                   tickets := [301, 302], status := PayStatus.pending, paymentGateway := "stripe" }],
    tickets := [{ baseTicket with
                  id := 301, event := 6, user := some 7, ticketType := "standard", price := 5,
                  reference := "PAY-6-TKT-0", paymentReference := "PAY-6" },
                { baseTicket with
                  id := 302, event := 6, user := some 7, ticketType := "standard", price := 5,
                  reference := "PAY-6-TKT-1", paymentReference := "PAY-6" }] }

/-- The paid Stripe session for `exDbC6`. -/
def paidSessC6 : StripeSession :=
  { id := "cs_6", client_reference_id := "PAY-6", payment_status := "paid",
    payment_intent := "pi_6" }

/-- The still-pending transfer record of ticket 10: initiated (`from`) by
user 1 towards registered user 2. -/
def recC8 : TransferRecord :=
  { fromUser := 1,
    toInfo := { type := "email", value := "b@x.com", name := "B", user := some 2 },
    transferredAt := 0, status := "pending", expiresAt := 86400000,
    cancelledAt := none, cancelledBy := none }

/-- Ticket 10 after user 1 transferred it to registered user 2: the owner
field already points at user 2 and the single record `recC8` is pending. -/
def tktC8 : TicketDoc :=
  { baseTicket with
    id := 10, event := 1, user := some 2,
    recipientInfo := some { type := "email", value := some "b@x.com", name := some "B" },
    ticketType := "VIP", price := 50,
    reference := "PAY-8-TKT-0", paymentReference := "PAY-8",
    status := TkStatus.success, transferred := true,
    transferHistory := [recC8], qrGenerations := 1 }

/-- Store in which user 1 transferred ticket 10 to registered user 2. -/
def exDbC8 : DB :=
  { events := [], payments := [],
    tickets := [tktC8],
    users := [{ id := 1, email := "a@x.com", mobileNumber := "111", tickets := [] },
              { id := 2, email := "b@x.com", mobileNumber := "222", tickets := [10] }] }

/-- A paid, unscanned ticket for the event dated 100. -/
def tktC9 : TicketDoc :=
  { baseTicket with
    id := 20, event := 1, user := some 7, ticketType := "VIP", price := 50,
    reference := "PAY-9-TKT-0", paymentReference := "PAY-9",
    status := TkStatus.success, qrGenerations := 1 }

/-- Store with a paid, unscanned ticket for an event whose date (100) is
already in the past at scan time (5000). -/
def exDbC9 : DB :=
  { events := [{ id := 1, date := 100,
                 ticketTypes := [{ name := "VIP", price := 50, quantity := 10, sold := 1 }],
                 soldOut := false }],
    payments := [],
    tickets := [tktC9],
    users := [] }

/-- A Wave payment whose stored status is failed. -/
def payC10 : PaymentDoc :=
  { user := 7, event := 1, amount := 50, reference := "PAY-10",
    tickets := [], status := PayStatus.failed, paymentGateway := "wave" }

/-- Store with a Wave payment whose stored status is failed. -/
def exDbC10 : DB :=
  { events := [], payments := [payC10], tickets := [], users := [] }

/-! ## Claim theorems: concrete evaluations -/

/-- C1: the claim that re-verifying an already-success payment
short-circuits with no further state change FAILS on the code. In
`exDbC1` the Wave payment "PAY-1" is already success with `sold = 1` and
one generated QR code; a second `verifyPayment` call (part_009) with the
same reference and gateway answers "verified" again and, far from
short-circuiting, increments the tier's `sold` to 2 and regenerates the
ticket's QR code. -/
theorem c1_reverify_double_credits :
    ((findEvent exDbC1 1).map fun e => e.ticketTypes.map fun tt => tt.sold) = some [1] ∧
    ((findTicket exDbC1 100).map fun t => t.qrGenerations) = some 1 ∧
    (findPayment exDbC1 "PAY-1").map (fun p => p.status) = some PayStatus.success ∧
    (verifyPayment9 exDbC1 "PAY-1" "wave" none none).2 = VerifyResp.verified "wave" ∧
    ((findEvent (verifyPayment9 exDbC1 "PAY-1" "wave" none none).1 1).map
      fun e => e.ticketTypes.map fun tt => tt.sold) = some [2] ∧
    ((findTicket (verifyPayment9 exDbC1 "PAY-1" "wave" none none).1 100).map
      fun t => t.qrGenerations) = some 2 := by
  decide

/-- C2: the claim that a verification whose tickets would overshoot the
tier's quantity fails closed FAILS on the part_009 code. In `exDbC2` the
tier "VIP" has quantity 2 with `sold` already 2, yet verifying the second
pending two-ticket Wave payment succeeds, marks the payment success and
pushes `sold` to 4 > 2: no capacity re-check exists on this path. -/
theorem c2_oversell_at_verification :
    ((findEvent exDbC2 2).map fun e => e.ticketTypes.map fun tt => (tt.sold, tt.quantity))
      = some [(2, 2)] ∧
    (verifyPayment9 exDbC2 "PAY-2" "wave" none (some waveSucceeded)).2
      = VerifyResp.verified "wave" ∧
    ((findPayment (verifyPayment9 exDbC2 "PAY-2" "wave" none (some waveSucceeded)).1 "PAY-2").map
      fun p => p.status) = some PayStatus.success ∧
    ((findEvent (verifyPayment9 exDbC2 "PAY-2" "wave" none (some waveSucceeded)).1 2).map
      fun e => e.ticketTypes.map fun tt => (tt.sold, tt.quantity)) = some [(4, 2)] := by
  decide

/-- C3 counterexample: the claim that no operation ever moves a payment
from success to failed is FALSE. In `exDbC3` the payment "PAY-3" is
stored as success; running part_009's `verifyPayment` on a Stripe session
for that reference which the gateway reports as unpaid drives
`verifyStripePayment` into `updatePaymentStatus(reference, FAILED)`,
leaving the stored status failed. -/
theorem c3_success_to_failed :
    (findPayment exDbC3 "PAY-3").map (fun p => p.status) = some PayStatus.success ∧
    ((findPayment (verifyPayment9 exDbC3 "cs_3" "stripe" (some unpaidSessC3) none).1 "PAY-3").map
      fun p => p.status) = some PayStatus.failed := by
  decide

/-- C6: the claim that `soldOut` is always recomputed from post-increment
tier values FAILS on part_006's `verifyPayment`. In `exDbC6`, verifying
the paid two-ticket standard payment brings the standard tier to 2 of 2
sold while the vip tier is already 1 of 1, so every tier is sold out, yet
the `findByIdAndUpdate` computes `soldOut` from the stale pre-increment
values (`0 >= 2 && 1 >= 1`) and stores `soldOut = false`. -/
theorem c6_soldOut_stale_recompute :
    (verifyPayment6 exDbC6 "cs_6" (some paidSessC6)).2 = Resp6.verified ∧
    ((findEvent6 (verifyPayment6 exDbC6 "cs_6" (some paidSessC6)).1 6).map
      fun e => (e.standardTicket.sold, e.standardTicket.quantity,
                e.vipTicket.sold, e.vipTicket.quantity, e.soldOut))
      = some (2, 2, 1, 1, false) := by
  decide

/-- C8 counterexample: the claim that `cancelTransfer` succeeds for the
ORIGINAL owner while the latest record is pending (failing with
NoPendingTransfer otherwise) is FALSE. In `exDbC8` user 1 initiated the
still-pending transfer of ticket 10 (the record's `from` is 1), but the
code compares the caller against the ticket's CURRENT owner — already
moved to recipient 2 — so user 1's cancellation fails with the permission
error, not NoPendingTransfer, while recipient 2 (not the original owner)
is the one who can cancel. -/
theorem c8_original_owner_cannot_cancel :
    ((findTicket exDbC8 10).map fun t =>
      t.transferHistory.map fun r => (r.fromUser, r.status)) = some [(1, "pending")] ∧
    (cancelTransfer exDbC8 10 1 500).2 = Except.error CancelErr.notPermitted ∧
    (cancelTransfer exDbC8 10 1 500).2 ≠ Except.error CancelErr.noPendingTransfer ∧
    (cancelTransfer exDbC8 10 2 500).2 ≠ Except.error CancelErr.notPermitted := by
  decide

/-- C9 counterexample: the claim that the admin scan rejects tickets of
past events is FALSE. In `exDbC9` ticket 20 belongs to the event dated
100, scanned at time 5000 (the event is long past), yet `scanTicket`
succeeds and sets the scanned flag: the handler never consults the event
date. -/
theorem c9_past_event_scan_succeeds :
    ((findEvent exDbC9 1).map fun e => e.date) = some 100 ∧ 100 < 5000 ∧
    (scanTicket exDbC9 20 99 5000).2
      = Except.ok { baseTicket with
                    id := 20, event := 1, user := some 7, ticketType := "VIP", price := 50,
                    reference := "PAY-9-TKT-0", paymentReference := "PAY-9",
                    status := TkStatus.success, scanned := true,
                    scannedAt := some 5000, scannedBy := some 99, qrGenerations := 1 } ∧
    ((findTicket (scanTicket exDbC9 20 99 5000).1 20).map fun t => t.scanned) = some true := by
  decide

/-- C10 counterexample: the claim that the Wave verification path throws
"Payment has failed" for a locally failed payment is FALSE as stated:
the function's catch-all rewraps that internal error, so the caller
observes "Payment verification failed" instead (the store is still left
untouched). -/
theorem c10_failed_wave_error_is_rewrapped :
    (verifyWavePayment exDbC10 "PAY-10" (some waveSucceeded))
      = (exDbC10, Except.error PSError.verificationFailed) ∧
    (verifyWavePayment exDbC10 "PAY-10" (some waveSucceeded)).2
      ≠ Except.error PSError.paymentHasFailed := by
  decide

/-! ## Lemmas about the store primitives -/

theorem find?_guardMap (p : α → Bool) (g : α → α) (l : List α)
    (h : ∀ x, p x = true → p (g x) = true) :
    (guardMap p g l).find? p = (l.find? p).map g := by
  induction l with
  | nil => rfl
  | cons x xs ih =>
    simp only [guardMap, List.map_cons]
    by_cases hx : p x = true
    · rw [if_pos hx, List.find?_cons_of_pos _ (h x hx), List.find?_cons_of_pos _ hx]
      rfl
    · rw [if_neg hx, List.find?_cons_of_neg _ hx, List.find?_cons_of_neg _ hx]
      exact ih

theorem guardMap_eq_self {p : α → Bool} {g : α → α} {l : List α}
    (h : ∀ x ∈ l, p x = false) : guardMap p g l = l := by
  induction l with
  | nil => rfl
  | cons x xs ih =>
    have ht : guardMap p g xs = xs := ih fun y hy => h y (List.mem_cons_of_mem _ hy)
    simp only [guardMap, List.map_cons] at ht ⊢
    rw [if_neg (by simp [h x (List.mem_cons_self x xs)]), ht]

theorem mem_of_setPayStatus_pending {l : List PaymentDoc} {reference : String}
    {s : PayStatus} (hs : s ≠ PayStatus.pending) :
    ∀ q ∈ setPayStatus l reference s, q.status = PayStatus.pending → q ∈ l := by
  intro q hq hpend
  unfold setPayStatus guardMap at hq
  rcases List.mem_map.mp hq with ⟨x, hx, hxq⟩
  by_cases hm : (x.reference == reference) = true
  · rw [if_pos hm] at hxq
    subst hxq
    exact absurd hpend hs
  · rw [if_neg hm] at hxq
    subst hxq
    exact hx

/-- No payment that reads as pending afterwards was written: it was
already present, unchanged, before. -/
def noNewPending (db db' : DB) : Prop :=
  ∀ q ∈ db'.payments, q.status = PayStatus.pending → q ∈ db.payments

theorem noNewPending_refl (db : DB) : noNewPending db db := fun _ hq _ => hq

theorem noNewPending_trans {a b c : DB} (h1 : noNewPending a b)
    (h2 : noNewPending b c) : noNewPending a c :=
  fun q hq hp => h1 q (h2 q hq hp) hp

theorem noNewPending_setPay {db : DB} {reference : String} {s : PayStatus}
    (hs : s ≠ PayStatus.pending) {db' : DB}
    (h : db'.payments = setPayStatus db.payments reference s) :
    noNewPending db db' :=
  fun q hq hp => mem_of_setPayStatus_pending hs q (h ▸ hq) hp

theorem noNewPending_updatePaymentStatus (db : DB) (reference : String)
    {s : PayStatus} (hs : s ≠ PayStatus.pending) :
    noNewPending db (updatePaymentStatus db reference s) := by
  unfold updatePaymentStatus
  split
  · exact noNewPending_setPay hs rfl
  · exact noNewPending_setPay hs rfl

theorem noNewPending_verifyErrorPath (db : DB) (bodyRef : String) :
    noNewPending db (verifyErrorPath db bodyRef).1 := by
  unfold verifyErrorPath
  split
  · exact noNewPending_refl db
  · exact noNewPending_setPay (by decide) rfl

theorem noNewPending_verifyStripePayment (db : DB) (s : StripeSession) :
    noNewPending db (verifyStripePayment db s).1 := by
  unfold verifyStripePayment
  split
  · exact noNewPending_refl db
  · split
    · exact noNewPending_updatePaymentStatus _ _ (by decide)
    · exact noNewPending_updatePaymentStatus _ _ (by decide)

theorem noNewPending_verifyWavePayment (db : DB) (reference : String)
    (gw : Option WaveSessionData) :
    noNewPending db (verifyWavePayment db reference gw).1 := by
  unfold verifyWavePayment
  have hInner : noNewPending db (verifyWavePaymentInner db reference gw).1 := by
    unfold verifyWavePaymentInner
    dsimp only
    split
    · exact noNewPending_refl db
    · split
      · exact noNewPending_refl db
      · split
        · split
          · exact noNewPending_refl db
          · split
            · split
              · exact noNewPending_updatePaymentStatus _ _ (by decide)
              · exact noNewPending_updatePaymentStatus _ _ (by decide)
            · split
              · exact noNewPending_updatePaymentStatus _ _ (by decide)
              · exact noNewPending_refl db
        · split
          · exact noNewPending_refl db
          · exact noNewPending_refl db
  dsimp only
  split
  · exact hInner
  · exact hInner

theorem noNewPending_verifySuccessPath (db : DB) (bodyRef : String)
    (payment : PaymentDoc) (gateway : String) :
    noNewPending db (verifySuccessPath db bodyRef payment gateway).1 := by
  unfold verifySuccessPath
  dsimp only
  split
  · exact noNewPending_trans (noNewPending_setPay (by decide) rfl)
      (noNewPending_verifyErrorPath _ _)
  · split
    · exact noNewPending_trans (noNewPending_setPay (by decide) rfl)
        (noNewPending_verifyErrorPath _ _)
    · split
      · exact noNewPending_trans
          (noNewPending_setPay (s := PayStatus.success) (by decide) (by split <;> rfl))
          (noNewPending_verifyErrorPath _ _)
      · exact noNewPending_setPay (s := PayStatus.success) (by decide)
          (by split <;> first | rfl | (split <;> rfl))

/-- C3 (amended): verification status transitions are not fully guarded.
What does hold: no verification path ever WRITES pending — every payment
that reads as pending after part_009's `verifyPayment` was already stored,
unchanged, before the call, so a success (or failed) payment never moves
back to pending. (The original claim's "never success to failed" half is
refuted by `c3_success_to_failed`: the failure-marking paths set failed
without checking the current status.) -/
theorem c3_verify_never_writes_pending (db : DB) (reference gateway : String)
    (stripeSess : Option StripeSession) (waveGw : Option WaveSessionData) :
    ∀ q ∈ (verifyPayment9 db reference gateway stripeSess waveGw).1.payments,
      q.status = PayStatus.pending → q ∈ db.payments := by
  have main : noNewPending db (verifyPayment9 db reference gateway stripeSess waveGw).1 := by
    unfold verifyPayment9
    dsimp only
    split
    · exact noNewPending_refl db
    · split
      · split
        · exact noNewPending_verifyErrorPath db reference
        · split
          · exact noNewPending_trans (noNewPending_verifyStripePayment db _)
              (noNewPending_verifyErrorPath _ _)
          · exact noNewPending_trans (noNewPending_verifyStripePayment db _)
              (noNewPending_verifySuccessPath _ _ _ _)
      · split
        · split
          · exact noNewPending_trans (noNewPending_verifyWavePayment db reference waveGw)
              (noNewPending_verifyErrorPath _ _)
          · split
            · exact noNewPending_verifyWavePayment db reference waveGw
            · exact noNewPending_trans (noNewPending_verifyWavePayment db reference waveGw)
                (noNewPending_verifySuccessPath _ _ _ _)
        · exact noNewPending_refl db
  exact main

/-! ## C4: compensation on a failed initiate -/

theorem guardMap_append (p : α → Bool) (g : α → α) (l m : List α) :
    guardMap p g (l ++ m) = guardMap p g l ++ guardMap p g m := by
  simp [guardMap]

theorem deleteOnePayment_append (l : List PaymentDoc) (q : PaymentDoc) (ref : String)
    (h : ∀ p ∈ l, p.reference ≠ ref) (hq : q.reference = ref) :
    deleteOnePayment (l ++ [q]) ref = l := by
  induction l with
  | nil => simp [deleteOnePayment, hq]
  | cons x xs ih =>
    have hx := h x (List.mem_cons_self x xs)
    have ih2 := ih fun p hp => h p (List.mem_cons_of_mem _ hp)
    simp only [List.cons_append, deleteOnePayment, List.append_eq]
    rw [if_neg hx, ih2]

/-- The two compensating writes of `initiatePayment`'s catch block undo the
creation of the payment record exactly. -/
theorem compensation_payments (l : List PaymentDoc) (payment : PaymentDoc)
    (ticketIds : List Nat) (mref : String)
    (hl : ∀ p ∈ l, p.reference ≠ mref) (hq : payment.reference = mref) :
    deleteOnePayment
      (guardMap (fun p => p.reference == mref)
        (fun p => { p with tickets := ticketIds }) (l ++ [payment])) mref = l := by
  have h1 : ∀ x ∈ l, (fun p => p.reference == mref) x = false := fun x hx => by
    simpa using hl x hx
  rw [guardMap_append, guardMap_eq_self h1]
  have h2 : guardMap (fun p => p.reference == mref)
      (fun p => { p with tickets := ticketIds }) [payment]
      = [{ payment with tickets := ticketIds }] := by
    simp [guardMap, hq]
  rw [h2]
  exact deleteOnePayment_append l _ mref hl hq

/-- C4: when `initiatePayment` (part_009) throws after creating the
Payment and the Tickets — here: the gateway session creation fails — the
catch block deletes the payment with `mainReference` and every ticket
whose `paymentReference` equals it before responding, so the store holds
no record keyed by `mainReference` afterwards. The freshness hypotheses
say `mainReference` was new, which the unique index on `reference`
guarantees for the generated `PAY-<timestamp>-<random>` value. -/
theorem c4_initiate_compensation (db : DB) (eventId : Nat) (ticketTypeName : String)
    (quantity userId : Nat) (recipientInfo : List RecipientInfo)
    (recipientType paymentGateway mainReference : String) (baseId : Nat)
    (hp : ∀ p ∈ db.payments, p.reference ≠ mainReference)
    (ht : ∀ t ∈ db.tickets, t.paymentReference ≠ mainReference) :
    (∀ p ∈ (initiatePayment9 db eventId ticketTypeName quantity userId recipientInfo
        recipientType paymentGateway mainReference baseId false).1.payments,
      p.reference ≠ mainReference) ∧
    (∀ t ∈ (initiatePayment9 db eventId ticketTypeName quantity userId recipientInfo
        recipientType paymentGateway mainReference baseId false).1.tickets,
      t.paymentReference ≠ mainReference) := by
  unfold initiatePayment9
  dsimp only
  split
  · exact ⟨hp, ht⟩
  · split
    · exact ⟨hp, ht⟩
    · split
      · exact ⟨hp, ht⟩
      · split
        · exact ⟨hp, ht⟩
        · split
          · exact ⟨hp, ht⟩
          · constructor
            · rw [compensation_payments db.payments _ _ mainReference hp rfl]
              exact hp
            · intro t htm
              have := List.of_mem_filter htm
              simpa using this

/-- C5: the Wave still-pending poll is a pure read. When the stored
payment is pending and the gateway reports a status that is neither
succeeded/completed nor failed/cancelled/expired, part_009's
`verifyPayment` answers the non-error "still pending" result and returns
the store COMPLETELY unchanged, so the call can be repeated any number of
times. -/
theorem c5_wave_pending_frame (db : DB) (reference : String)
    (stripeSess : Option StripeSession) (wd : WaveSessionData) (p : PaymentDoc)
    (href : reference ≠ "")
    (hp : findPayment db reference = some p)
    (hst : p.status = PayStatus.pending)
    (h1 : wd.payment_status ≠ "succeeded")
    (h2 : wd.checkout_status ≠ "completed")
    (h3 : wd.payment_status ∉ (["failed", "cancelled", "expired"] : List String)) :
    verifyPayment9 db reference "wave" stripeSess (some wd) =
      (db, VerifyResp.pendingResult WaveMsg.stillPending PayStatus.pending) := by
  unfold verifyPayment9 verifyWavePayment verifyWavePaymentInner
  simp [href, hp, hst, h1, h2, h3]

/-- C10 (amended): once a Wave payment's stored status is failed, the
verification path returns the identical store for EVERY possible gateway
response — the gateway is never queried and the payment can never move to
success through this path — and throws the catch-all
"Payment verification failed" (the internal "Payment has failed" error is
rewrapped by the function's catch, see the counterexample). -/
theorem c10_failed_wave_shortcircuit (db : DB) (reference : String)
    (gw : Option WaveSessionData) (p : PaymentDoc)
    (hp : findPayment db reference = some p)
    (hst : p.status = PayStatus.failed) :
    verifyWavePayment db reference gw = (db, Except.error PSError.verificationFailed) := by
  unfold verifyWavePayment verifyWavePaymentInner
  simp [hp, hst]

/-- Whether an `Except` result resolved (promise fulfilled vs rejected). -/
def isOkE : Except ε α → Bool
  | Except.ok _ => true
  | Except.error _ => false

theorem findTicket_mk (evs : List EventDoc) (ps : List PaymentDoc)
    (ts : List TicketDoc) (us : List UserDoc) (i : Nat) :
    findTicket ⟨evs, ps, ts, us⟩ i = ts.find? fun t => t.id == i := rfl

theorem findTicket_storeTicket (db : DB) (ticketId : Nat) (t' : TicketDoc)
    (hid : (t'.id == ticketId) = true) :
    findTicket (storeTicket db ticketId t') ticketId =
      (findTicket db ticketId).map fun _ => t' := by
  unfold findTicket storeTicket
  exact find?_guardMap _ _ _ fun x _ => hid

/-- C7: contract of `ticketService.transferTicket`. Given the ticket is
found, (i) the call succeeds exactly when the caller is the stored owner
and the ticket's status is success; (ii) a different registered owner
yields NotOwner; (iii) an unpaid ticket of the caller yields
TicketNotPaid; (iv) on success the stored ticket's owner becomes the
recipient's account when one matches the recipient contact and null
otherwise, a transfer record with status pending and `expiresAt` 24 hours
(86400000 ms) after `now` is appended, `recipientInfo` is overwritten
with the recipient, and `transferred` is set to true. -/
theorem c7_transfer_spec (db : DB) (ticketId fromUserId : Nat)
    (recipientType recipientValue recipientName : String) (now : Nat) (t : TicketDoc)
    (ht : findTicket db ticketId = some t) :
    (isOkE (transferTicket db ticketId fromUserId recipientType recipientValue
        recipientName now).2 = true ↔
      (t.user = some fromUserId ∧ t.status = TkStatus.success)) ∧
    (∀ u, t.user = some u → u ≠ fromUserId →
      (transferTicket db ticketId fromUserId recipientType recipientValue
        recipientName now).2 = Except.error TransferErr.notOwner) ∧
    (t.user = some fromUserId → t.status ≠ TkStatus.success →
      (transferTicket db ticketId fromUserId recipientType recipientValue
        recipientName now).2 = Except.error TransferErr.ticketNotPaid) ∧
    (t.user = some fromUserId → t.status = TkStatus.success →
      findTicket (transferTicket db ticketId fromUserId recipientType recipientValue
          recipientName now).1 ticketId = some
        { t with
          user := (findRecipient db recipientType recipientValue).map fun u => u.id
          transferHistory := t.transferHistory ++
            [{ fromUser := fromUserId
               toInfo := { type := recipientType, value := recipientValue,
                           name := recipientName,
                           user := (findRecipient db recipientType recipientValue).map
                             fun u => u.id }
               transferredAt := now
               status := "pending"
               expiresAt := now + 24 * 60 * 60 * 1000
               cancelledAt := none
               cancelledBy := none }]
          recipientInfo := some { type := recipientType, value := some recipientValue,
                                  name := some recipientName }
          transferred := true }) := by
  have ht' : db.tickets.find? (fun x => x.id == ticketId) = some t := ht
  have hid0 := List.find?_some ht'
  have hid : (t.id == ticketId) = true := hid0
  rcases hu : t.user with _ | u
  · refine ⟨?_, ?_, ?_, ?_⟩
    · simp [transferTicket, ht, hu, isOkE]
    · intro u hu2 _
      cases hu2
    · intro hu2
      cases hu2
    · intro hu2
      cases hu2
  · by_cases hue : u = fromUserId
    · subst hue
      by_cases hs : t.status = TkStatus.success
      · refine ⟨?_, ?_, ?_, ?_⟩
        · simp [transferTicket, ht, hu, hs, isOkE]
        · intro v hv hne
          cases hv
          exact absurd rfl hne
        · intro _ hns
          exact absurd hs hns
        · intro _ _
          simp only [transferTicket, ht, hu, hs]
          rw [if_neg fun h => h rfl, if_neg fun h => h rfl]
          dsimp only
          refine Eq.trans (findTicket_storeTicket _ ticketId _ ?_) ?_
          · exact hid
          · rw [findTicket_mk, ht']
            rfl
      · refine ⟨?_, ?_, ?_, ?_⟩
        · simp [transferTicket, ht, hu, hs, isOkE]
        · intro v hv hne
          cases hv
          exact absurd rfl hne
        · intro _ _
          simp [transferTicket, ht, hu, hs]
        · intro _ hs2
          exact absurd hs2 hs
    · refine ⟨?_, ?_, ?_, ?_⟩
      · simp [transferTicket, ht, hu, hue, isOkE]
      · intro v hv _
        cases hv
        simp [transferTicket, ht, hu, hue]
      · intro hu2
        cases hu2
        exact absurd rfl hue
      · intro hu2
        cases hu2
        exact absurd rfl hue

/-- C8 (amended): `cancelTransfer` checks the ticket's CURRENT owner, not
the transfer's originator: it succeeds exactly for the caller stored in
`ticket.user` (after a transfer, the recipient's account — never the
original owner, see the counterexample) while the latest transfer record
is pending; a non-owner gets the permission error, a missing or
non-pending latest record gets NoPendingTransfer; on success the latest
record is marked cancelled, the ticket's owner is set to the CALLER,
`transferred` is cleared and `recipientInfo` is set to null rather than
restored to its pre-transfer value. -/
theorem c8_cancel_current_owner_spec (db : DB) (ticketId userId now : Nat)
    (t : TicketDoc) (ht : findTicket db ticketId = some t) :
    (t.user ≠ some userId →
      (cancelTransfer db ticketId userId now).2 = Except.error CancelErr.notPermitted ∧
      (cancelTransfer db ticketId userId now).1 = db) ∧
    (t.user = some userId → t.transferHistory.getLast? = none →
      (cancelTransfer db ticketId userId now).2 = Except.error CancelErr.noPendingTransfer) ∧
    (∀ latest, t.user = some userId → t.transferHistory.getLast? = some latest →
      latest.status ≠ "pending" →
      (cancelTransfer db ticketId userId now).2 = Except.error CancelErr.noPendingTransfer) ∧
    (∀ latest, t.user = some userId → t.transferHistory.getLast? = some latest →
      latest.status = "pending" →
      findTicket (cancelTransfer db ticketId userId now).1 ticketId = some
        { t with
          user := some userId
          transferred := false
          recipientInfo := none
          transferHistory := t.transferHistory.dropLast ++
            [{ latest with
               status := "cancelled"
               cancelledAt := some now
               cancelledBy := some userId }] }) := by
  have ht' : db.tickets.find? (fun x => x.id == ticketId) = some t := ht
  have hid0 := List.find?_some ht'
  have hid : (t.id == ticketId) = true := hid0
  refine ⟨?_, ?_, ?_, ?_⟩
  · intro hne
    constructor <;> simp [cancelTransfer, ht, hne]
  · intro hu hl
    simp [cancelTransfer, ht, hu, hl]
  · intro latest hu hl hs
    simp [cancelTransfer, ht, hu, hl, hs]
  · intro latest hu hl hs
    simp only [cancelTransfer, ht, hu, hl, hs]
    rw [if_neg fun h => h rfl, if_neg fun h => h rfl]
    dsimp only
    refine Eq.trans (findTicket_storeTicket _ ticketId _ ?_) ?_
    · exact hid
    · rw [findTicket_mk, ht']
      rfl

/-- C9 (amended): the admin `scanTicket` handler rejects an unpaid ticket
(OnlyPaidTickets) and an already-scanned ticket (AlreadyScanned), leaving
the store untouched in both cases; every OTHER found ticket — including
one whose event date is already past, which the handler never checks — is
marked scanned exactly once, recording `scannedAt = now` and
`scannedBy = adminId`, and any further scan of it is rejected with
AlreadyScanned. -/
theorem c9_scan_spec (db : DB) (ticketId adminId now : Nat) (t : TicketDoc)
    (ht : findTicket db ticketId = some t) :
    (t.status ≠ TkStatus.success →
      (scanTicket db ticketId adminId now).2 = Except.error ScanErr.onlyPaidTickets ∧
      (scanTicket db ticketId adminId now).1 = db) ∧
    (t.status = TkStatus.success → t.scanned = true →
      (scanTicket db ticketId adminId now).2 = Except.error ScanErr.alreadyScanned ∧
      (scanTicket db ticketId adminId now).1 = db) ∧
    (t.status = TkStatus.success → t.scanned = false →
      findTicket (scanTicket db ticketId adminId now).1 ticketId =
        some { t with scanned := true, scannedAt := some now, scannedBy := some adminId } ∧
      ∀ adminId2 now2,
        (scanTicket (scanTicket db ticketId adminId now).1 ticketId adminId2 now2).2
          = Except.error ScanErr.alreadyScanned) := by
  have ht' : db.tickets.find? (fun x => x.id == ticketId) = some t := ht
  have hid0 := List.find?_some ht'
  have hid : (t.id == ticketId) = true := hid0
  refine ⟨?_, ?_, ?_⟩
  · intro hns
    constructor <;> simp [scanTicket, ht, hns]
  · intro hs hsc
    constructor <;> simp [scanTicket, ht, hs, hsc]
  · intro hs hsc
    have hstep : findTicket (scanTicket db ticketId adminId now).1 ticketId =
        some { t with scanned := true, scannedAt := some now, scannedBy := some adminId } := by
      simp only [scanTicket, ht, hs, hsc]
      rw [if_neg fun h => h rfl, if_neg Bool.false_ne_true]
      dsimp only
      refine Eq.trans (findTicket_storeTicket _ ticketId _ ?_) ?_
      · exact hid
      · rw [findTicket_mk, ht']
        rfl
    refine ⟨hstep, ?_⟩
    intro adminId2 now2
    revert hstep
    generalize (scanTicket db ticketId adminId now).1 = db2
    intro hstep
    simp [scanTicket, hstep, hs]

/-! ## Witnesses instantiating the general theorems -/

/-- A pending Wave payment in a store where the verify call is made with
an invalid gateway, leaving everything untouched. -/
def payC3w : PaymentDoc :=
  { user := 1, event := 1, amount := 5, reference := "PAY-3W",
    tickets := [], status := PayStatus.pending, paymentGateway := "wave" }

/-- Store for the C3 witness. -/
def exDbC3w : DB :=
  { events := [], payments := [payC3w], tickets := [], users := [] }

/-- C3 witness: the pending payment found in the store after a verify
call was already stored before it. -/
theorem c3_verify_never_writes_pending_witness :
    payC3w ∈ exDbC3w.payments :=
  c3_verify_never_writes_pending exDbC3w "PAY-3W" "bogus" none none payC3w
    (by decide) (by decide)

/-- Store for the C4 witness: one event with an available tier. -/
def exDbC4 : DB :=
  { events := [{ id := 4, date := 99,
                 ticketTypes := [{ name := "GA", price := 10, quantity := 5, sold := 0 }],
                 soldOut := false }],
    payments := [], tickets := [], users := [] }

/-- C4 witness: a failed initiate against `exDbC4` leaves no record keyed
by the fresh reference. -/
theorem c4_initiate_compensation_witness :
    ((initiatePayment9 exDbC4 4 "GA" 2 7 [] "mobile" "wave" "PAY-4W" 500 false).1.payments.all
      fun p => ! (p.reference == "PAY-4W")) = true ∧
    ((initiatePayment9 exDbC4 4 "GA" 2 7 [] "mobile" "wave" "PAY-4W" 500 false).1.tickets.all
      fun t => ! (t.paymentReference == "PAY-4W")) = true := by
  have h := c4_initiate_compensation exDbC4 4 "GA" 2 7 [] "mobile" "wave" "PAY-4W" 500
    (by decide) (by decide)
  constructor
  · exact List.all_eq_true.mpr fun p hp => by simpa using h.1 p hp
  · exact List.all_eq_true.mpr fun t ht2 => by simpa using h.2 t ht2

/-- A pending Wave payment for the C5 witness. -/
def payC5 : PaymentDoc :=
  { user := 1, event := 1, amount := 5, reference := "PAY-5W",
    tickets := [], status := PayStatus.pending, paymentGateway := "wave" }

/-- Store for the C5 witness. -/
def exDbC5 : DB :=
  { events := [], payments := [payC5], tickets := [], users := [] }

/-- A Wave poll answer that is neither terminal nor succeeded. -/
def wdPendingC5 : WaveSessionData :=
  { payment_status := "processing", checkout_status := "open" }

/-- C5 witness: the still-pending poll answers the pending result and
returns the identical store. -/
theorem c5_wave_pending_frame_witness :
    verifyPayment9 exDbC5 "PAY-5W" "wave" none (some wdPendingC5) =
      (exDbC5, VerifyResp.pendingResult WaveMsg.stillPending PayStatus.pending) :=
  c5_wave_pending_frame exDbC5 "PAY-5W" none wdPendingC5 payC5
    (by decide) (by decide) (by decide) (by decide) (by decide) (by decide)

/-- A paid ticket owned by user 1, for the C7 witness. -/
def tktC7 : TicketDoc :=
  { baseTicket with
    id := 11, event := 1, user := some 1, ticketType := "VIP", price := 50,
    reference := "PAY-7-TKT-0", paymentReference := "PAY-7",
    status := TkStatus.success }

/-- Store for the C7 witness: user 1 owns paid ticket 11; user 2 is the
registered account behind the recipient email. -/
def exDbC7 : DB :=
  { events := [], payments := [],
    tickets := [tktC7],
    users := [{ id := 1, email := "a@x.com", mobileNumber := "111", tickets := [11] },
              { id := 2, email := "b@x.com", mobileNumber := "222", tickets := [] }] }

/-- C7 witness: transferring ticket 11 from its paid owner to the
registered e-mail recipient stores the recipient as owner, appends the
pending 24-hour record and sets `transferred`. -/
theorem c7_transfer_spec_witness :
    findTicket (transferTicket exDbC7 11 1 "email" "b@x.com" "B" 1000).1 11 = some
      { tktC7 with
        user := some 2
        transferHistory := [{ fromUser := 1
                              toInfo := { type := "email", value := "b@x.com",
                                          name := "B", user := some 2 }
                              transferredAt := 1000
                              status := "pending"
                              expiresAt := 1000 + 24 * 60 * 60 * 1000
                              cancelledAt := none
                              cancelledBy := none }]
        recipientInfo := some { type := "email", value := some "b@x.com", name := some "B" }
        transferred := true } :=
  (c7_transfer_spec exDbC7 11 1 "email" "b@x.com" "B" 1000 tktC7 (by decide)).2.2.2
    (by decide) (by decide)

/-- C8 witness: the CURRENT owner (recipient user 2) can cancel; the
stored ticket ends owned by the caller with the record cancelled and
`recipientInfo` nulled. -/
theorem c8_cancel_current_owner_spec_witness :
    findTicket (cancelTransfer exDbC8 10 2 500).1 10 = some
      { tktC8 with
        user := some 2
        transferred := false
        recipientInfo := none
        transferHistory := [{ recC8 with
                              status := "cancelled"
                              cancelledAt := some 500
                              cancelledBy := some 2 }] } :=
  (c8_cancel_current_owner_spec exDbC8 10 2 500 tktC8 (by decide)).2.2.2 recC8
    (by decide) (by decide) (by decide)

/-- C9 witness: scanning the paid, unscanned ticket marks it scanned with
the admin and time recorded, and a second scan is rejected. -/
theorem c9_scan_spec_witness :
    findTicket (scanTicket exDbC9 20 99 5000).1 20 =
      some { tktC9 with scanned := true, scannedAt := some 5000, scannedBy := some 99 } ∧
    (scanTicket (scanTicket exDbC9 20 99 5000).1 20 77 6000).2
      = Except.error ScanErr.alreadyScanned := by
  have h := (c9_scan_spec exDbC9 20 99 5000 tktC9 (by decide)).2.2 (by decide) (by decide)
  exact ⟨h.1, h.2 77 6000⟩

/-- C10 witness: the failed Wave payment short-circuits identically even
when no gateway response exists at all. -/
theorem c10_failed_wave_shortcircuit_witness :
    verifyWavePayment exDbC10 "PAY-10" none =
      (exDbC10, Except.error PSError.verificationFailed) :=
  c10_failed_wave_shortcircuit exDbC10 "PAY-10" none payC10 (by decide) (by decide)
